import Mathlib

/-!
Verification of the voxel-terrain core of bevy_voxel_world (examples):
a shallow embedding of the voxel classifier closure produced by
get_voxel_fn in src/examples/advanced/voxel.rs, of the tier
configurations in src/examples/advanced/main.rs and
src/examples/advanced/world.rs, and of the movement-resolution part of
walking_camera in src/examples/advanced/camera.rs.  Machine floats are
modelled by rationals; concrete witnesses below use dyadic values exact
in f32/f64, and the sole nondyadic constant (the probe offset 3/10 of
the source) only ever enters comparisons with margins far above its f32
rounding error, so the modelled arithmetic agrees with the source
arithmetic on every witness input.
-/

/-- WorldVoxel from the bevy_voxel_world prelude: either Air or
Solid(material) with a small unsigned material id. -/
inductive WorldVoxel where
  | Air : WorldVoxel
  | Solid : Nat → WorldVoxel
deriving DecidableEq, Repr

/-- Integer 3-vector, as bevy IVec3 (components are i32; modelled as
unbounded integers, all values appearing in witnesses are tiny). -/
structure IVec3 where
  x : Int
  y : Int
  z : Int
deriving DecidableEq, Repr

/-- Association-list lookup, the observable behavior of HashMap::get
keyed by an (i32, i32) column. -/
def lookupMap {α : Type} : List ((Int × Int) × α) → (Int × Int) → Option α
  | [], _ => none
  | (k, v) :: rest, key => if key = k then some v else lookupMap rest key

/-- Parameters captured by the closure returned by get_voxel_fn in
src/examples/advanced/voxel.rs: the fixed-seed noise field (abstracted
as a rational function, since HybridMulti Perlin is an external crate)
and the three tier multipliers. -/
structure VoxelCfg where
  noise : ℚ → ℚ → ℚ
  scale : ℚ
  height_scale : ℚ
  height_minus : ℚ

/-- The ground-height sample computed on a cache miss
(src/examples/advanced/voxel.rs line 33):
noise(x / (1000 / scale), z / (1000 / scale)) * 50 * height_scale - height_minus. -/
def groundSample (cfg : VoxelCfg) (x z : Int) : ℚ :=
  cfg.noise ((x : ℚ) / (1000 / cfg.scale)) ((z : ℚ) / (1000 / cfg.scale))
    * 50 * cfg.height_scale - cfg.height_minus

/-- Mutable state of one classifier instance: the memoized height cache
and the canopy registry (both HashMaps in the source, modelled as
association lists whose head is the most recent insertion). -/
structure ClassifierState where
  cache : List ((Int × Int) × ℚ)
  canopy_positions : List ((Int × Int) × Int)
deriving Repr

/-- The fresh state each call of get_voxel_fn starts from: both maps
empty. -/
def initState : ClassifierState := ⟨[], []⟩

/-- Cached ground-height lookup (src/examples/advanced/voxel.rs lines
30-37): return the cached sample for the column, or compute, insert and
return it. -/
def heightLookup (cfg : VoxelCfg) (cache : List ((Int × Int) × ℚ)) (x z : Int) :
    ℚ × List ((Int × Int) × ℚ) :=
  match lookupMap cache (x, z) with
  | some sample => (sample, cache)
  | none => (groundSample cfg x z, ((x, z), groundSample cfg x z) :: cache)

/-- The nine canopy offsets, in source order
(src/examples/advanced/voxel.rs lines 40-50). -/
def canopy_offsets : List (Int × Int) :=
  [(0, 0), (1, 0), (-1, 0), (0, 1), (0, -1), (1, 1), (-1, 1), (1, -1), (-1, -1)]

/-- One iteration of the canopy loop: the registry holds a trunk top
base for the offset column and y lies in [base, base + 3]
(src/examples/advanced/voxel.rs lines 52-58). -/
def hitAt (reg : List ((Int × Int) × Int)) (x z y : Int) (d : Int × Int) : Bool :=
  match lookupMap reg (x + d.1, z + d.2) with
  | some base => decide (base ≤ y ∧ y ≤ base + 3)
  | none => false

/-- The whole canopy loop: some offset hits. -/
def canopyHitB (reg : List ((Int × Int) × Int)) (x z y : Int) : Bool :=
  canopy_offsets.any (hitAt reg x z y)

/-- Body of the closure returned by get_voxel_fn
(src/examples/advanced/voxel.rs lines 20-82), one classification step:
sea level below y = 1; then the (cache-mutating) height lookup; then the
canopy loop; then ground / trunk / air.  The trunk branch records the
column trunk top y + 1 in the canopy registry. -/
def get_voxel_fn (cfg : VoxelCfg) (st : ClassifierState) (p : IVec3) :
    WorldVoxel × ClassifierState :=
  if p.y < 1 then (WorldVoxel.Solid 3, st)
  else
    let gh : ℚ := (heightLookup cfg st.cache p.x p.z).1
    let st1 : ClassifierState :=
      ⟨(heightLookup cfg st.cache p.x p.z).2, st.canopy_positions⟩
    if canopyHitB st.canopy_positions p.x p.z p.y then (WorldVoxel.Solid 1, st1)
    else if (p.y : ℚ) < gh then (WorldVoxel.Solid 0, st1)
    else if (p.y : ℚ) < gh + 5 ∧ gh > 5 ∧ (p.y : ℚ) > 5 then
      if p.x % 5 = 0 ∧ p.z % 5 = 0 then
        if (p.y : ℚ) < gh + 5 then
          (WorldVoxel.Solid 2, ⟨st1.cache, ((p.x, p.z), p.y + 1) :: st1.canopy_positions⟩)
        else (WorldVoxel.Air, st1)
      else (WorldVoxel.Air, st1)
    else (WorldVoxel.Air, st1)

/-- The voxel returned by one classification step. -/
def classifyAt (cfg : VoxelCfg) (st : ClassifierState) (p : IVec3) : WorldVoxel :=
  (get_voxel_fn cfg st p).1

/-- The classifier state after one classification step. -/
def classifyState (cfg : VoxelCfg) (st : ClassifierState) (p : IVec3) : ClassifierState :=
  (get_voxel_fn cfg st p).2

/-- The ground height the classifier uses for a column in a given
state. -/
def heightAt (cfg : VoxelCfg) (st : ClassifierState) (x z : Int) : ℚ :=
  (heightLookup cfg st.cache x z).1

/-- State after classifying a list of positions in order on one
instance. -/
def runSeq (cfg : VoxelCfg) (st : ClassifierState) : List IVec3 → ClassifierState
  | [] => st
  | p :: ps => runSeq cfg (classifyState cfg st p) ps

/-- Answers produced by classifying a list of positions in order on one
instance (state threaded through, as for one chunk closure of
src/examples/advanced/world.rs lines 94-102). -/
def runQueries (cfg : VoxelCfg) (st : ClassifierState) : List IVec3 → List WorldVoxel
  | [] => []
  | p :: ps => classifyAt cfg st p :: runQueries cfg (classifyState cfg st p) ps

/-- Constant noise field, used to instantiate witnesses. -/
def constNoise (c : ℚ) : ℚ → ℚ → ℚ := fun _ _ => c

/-- Unit-multiplier configuration with constant noise 2/5, giving
ground height 20 everywhere. -/
def cfgU : VoxelCfg := ⟨constNoise (2/5), 1, 1, 0⟩

/-- Spec-side ground-height formula, stated as the spec phrases it:
noise(x * scale / 1000, z * scale / 1000) * 50 * height_scale - height_minus. -/
def specGroundHeight (cfg : VoxelCfg) (x z : Int) : ℚ :=
  cfg.noise ((x : ℚ) * cfg.scale / 1000) ((z : ℚ) * cfg.scale / 1000)
    * 50 * cfg.height_scale - cfg.height_minus

/-- The tier multipliers carried by HighDetailWorld in
src/examples/advanced/main.rs lines 53-57. -/
structure MainTierConfig where
  scale : ℚ
  height_scale : ℚ

/-- One voxel query through the voxel_lookup_delegate of
src/examples/advanced/main.rs lines 84-88: the inner per-voxel closure
calls get_voxel_fn(1.0, 1.0, 0.0) afresh on every query, so each query
runs on a brand-new classifier instance with hardcoded multipliers,
ignoring the captured tier configuration. -/
def mainrsVoxelQuery (_w : MainTierConfig) (noise : ℚ → ℚ → ℚ) (p : IVec3) : WorldVoxel :=
  classifyAt ⟨noise, 1, 1, 0⟩ initState p

/-- The per-chunk behavior of the voxel_lookup_delegate of
src/examples/advanced/world.rs lines 94-102: one classifier instance is
created per chunk with the configured multipliers, and all of that
queries of that chunk are answered by this instance in order. -/
def worldrsChunkAnswers (scale height_scale height_minus : ℚ) (noise : ℚ → ℚ → ℚ)
    (queries : List IVec3) : List WorldVoxel :=
  runQueries ⟨noise, scale, height_scale, height_minus⟩ initState queries

/-- Half-open spawn-distance range of one tier. -/
structure TierRange where
  lo : Nat
  hi : Nat

/-- Membership of a distance in a tier range, as a Bool. -/
def inRangeB (r : TierRange) (d : Nat) : Bool :=
  decide (r.lo ≤ d) && decide (d < r.hi)

/-- HighDetailWorld range in src/examples/advanced/main.rs lines 78-83:
spawning_min_distance 0, spawning_max_distance 4. -/
def mainrsHighRange : TierRange := ⟨0, 4⟩

/-- LowDetailWorld range in src/examples/advanced/main.rs lines 119-124:
spawning_min_distance 1, spawning_max_distance 3. -/
def mainrsLowRange : TierRange := ⟨1, 3⟩

/-- HighDetailWorld default range in src/examples/advanced/world.rs
lines 61-69: from 0, to 5. -/
def worldrsHighRange : TierRange := ⟨0, 5⟩

/-- LowDetailWorld default range in src/examples/advanced/world.rs
lines 124-134: from 6, to 7. -/
def worldrsLowRange : TierRange := ⟨6, 7⟩

/-! Movement resolution of walking_camera in
src/examples/advanced/camera.rs lines 80-117.  Positions and velocities
are f32 vectors, modelled as rational triples. -/

/-- Rational 3-vector modelling bevy Vec3. -/
structure V3 where
  x : ℚ
  y : ℚ
  z : ℚ
deriving DecidableEq, Repr

/-- Componentwise vector sum. -/
def V3.add (a b : V3) : V3 := ⟨a.x + b.x, a.y + b.y, a.z + b.z⟩

/-- Componentwise vector difference. -/
def V3.sub (a b : V3) : V3 := ⟨a.x - b.x, a.y - b.y, a.z - b.z⟩

/-- Scalar multiple of a vector. -/
def V3.smul (k : ℚ) (a : V3) : V3 := ⟨k * a.x, k * a.y, k * a.z⟩

/-- Truncation toward zero, the behavior of a Rust "as i32" float cast
(used by Vec3::as_ivec3). -/
def truncQ (q : ℚ) : Int := if 0 ≤ q then ⌊q⌋ else ⌈q⌉

/-- Vec3::as_ivec3: componentwise truncation toward zero. -/
def asIVec3 (v : V3) : IVec3 := ⟨truncQ v.x, truncQ v.y, truncQ v.z⟩

/-- The probe predicate matches!(voxel, WorldVoxel::Solid(_)). -/
def isSolid : WorldVoxel → Bool
  | WorldVoxel.Solid _ => true
  | WorldVoxel.Air => false

/-- Candidate position (src/examples/advanced/camera.rs line 80):
translation + velocity * dt. -/
def candidate (p0 v : V3) (dt : ℚ) : V3 := V3.add p0 (V3.smul dt v)

/-- Feet probe position: one unit below (line 82). -/
def feet_position (c : V3) : V3 := ⟨c.x, c.y - 1, c.z⟩

/-- Head probe position: one unit above (line 83). -/
def head_position (c : V3) : V3 := ⟨c.x, c.y + 1, c.z⟩

/-- Vertical resolution (lines 85-100) on candidate position c with
incoming vertical velocity and grounded flag: a Solid feet probe snaps y
to ceil(feet.y) + 1, zeroes vertical velocity and sets grounded; else a
Solid head probe snaps y to floor(head.y) - 1 and zeroes vertical
velocity, leaving the grounded flag as it was; else the candidate y is
kept and grounded is cleared. -/
def vertResolve (V : IVec3 → WorldVoxel) (c : V3) (velY : ℚ) (grounded : Bool) :
    V3 × ℚ × Bool :=
  if isSolid (V (asIVec3 (feet_position c))) then
    (⟨c.x, ((⌈(feet_position c).y⌉ : Int) : ℚ) + 1, c.z⟩, 0, true)
  else if isSolid (V (asIVec3 (head_position c))) then
    (⟨c.x, ((⌊(head_position c).y⌋ : Int) : ℚ) - 1, c.z⟩, 0, grounded)
  else (c, velY, false)

/-- The four lateral probe positions (lines 104-109): offsets of 3/10 on
x and z combined, at the resolved position. -/
def check_positions (p : V3) : List V3 :=
  [⟨p.x + 3/10, p.y, p.z + 3/10⟩, ⟨p.x + 3/10, p.y, p.z - 3/10⟩,
   ⟨p.x - 3/10, p.y, p.z + 3/10⟩, ⟨p.x - 3/10, p.y, p.z - 3/10⟩]

/-- Whether any lateral probe is Solid (lines 110-116). -/
def anyProbeSolid (V : IVec3 → WorldVoxel) (p : V3) : Bool :=
  (check_positions p).any (fun q => isSolid (V (asIVec3 q)))

/-- Horizontal displacement of this tick (lines 102-103): the x and z
velocity components times dt, with zero y. -/
def horizontal_movement (v : V3) (dt : ℚ) : V3 := ⟨v.x * dt, 0, v.z * dt⟩

/-- One whole movement-resolution tick (lines 80-117): candidate
integration, vertical resolution, then horizontal resolution, which
reverts the whole horizontal displacement when any lateral probe is
Solid.  Returns the final translation, vertical velocity and grounded
flag. -/
def walkTick (V : IVec3 → WorldVoxel) (p0 v : V3) (dt : ℚ) (grounded : Bool) :
    V3 × ℚ × Bool :=
  let c := candidate p0 v dt
  let r := vertResolve V c v.y grounded
  let p2 := if anyProbeSolid V r.1 then V3.sub r.1 (horizontal_movement v dt) else r.1
  (p2, r.2.1, r.2.2)

/-! Concrete classifier instances and voxel fields used by witnesses and
counterexamples. -/

/-- Classifier state after one trunk classification at (0, 20, 0) under
cfgU: the canopy registry holds trunk top 21 for column (0, 0). -/
def stAfterTrunk : ClassifierState := classifyState cfgU initState ⟨0, 20, 0⟩

/-- Read-only voxel field exposed by a cfgU classifier that has already
placed the trunk voxel at (0, 20, 0). -/
def fieldT : IVec3 → WorldVoxel := fun p => classifyAt cfgU stAfterTrunk p

/-- Unit-multiplier configuration with constant noise 23/100, giving
ground height 11.5 everywhere (solid ground up to y = 11). -/
def cfgHill : VoxelCfg := ⟨constNoise (23/100), 1, 1, 0⟩

/-- Read-only voxel field of a fresh cfgHill classifier. -/
def fieldHill : IVec3 → WorldVoxel := fun p => classifyAt cfgHill initState p

/-- Noise field that is 2/5 for scaled x at least 3/1000 and 1/100
below, so that with unit multipliers columns with x at least 3 have
ground height 20 and columns left of them height 1/2: a vertical wall. -/
def stepNoise : ℚ → ℚ → ℚ := fun sx _ => if 3/1000 ≤ sx then 2/5 else 1/100

/-- Unit-multiplier configuration over the wall noise. -/
def cfgStep : VoxelCfg := ⟨stepNoise, 1, 1, 0⟩

/-- Read-only voxel field of a fresh cfgStep classifier. -/
def fieldStep : IVec3 → WorldVoxel := fun p => classifyAt cfgStep initState p

/-- A height cache is consistent when every stored entry equals the pure
noise-derived sample of its column. -/
def cacheOK (cfg : VoxelCfg) (cache : List ((Int × Int) × ℚ)) : Prop :=
  ∀ k v, lookupMap cache k = some v → v = groundSample cfg k.1 k.2

/-! Helper lemmas about the classifier state. -/

theorem lookupMap_head {α : Type} (rest : List ((Int × Int) × α)) (k : Int × Int) (v : α) :
    lookupMap ((k, v) :: rest) k = some v := by
  simp [lookupMap]

theorem heightLookup_self (cfg : VoxelCfg) (c : List ((Int × Int) × ℚ)) (x z : Int) :
    lookupMap (heightLookup cfg c x z).2 (x, z) = some ((heightLookup cfg c x z).1) := by
  cases h : lookupMap c (x, z) with
  | none => simp [heightLookup, h, lookupMap]
  | some s => simp [heightLookup, h]

theorem heightLookup_stable (cfg : VoxelCfg) (c : List ((Int × Int) × ℚ)) (x z : Int) :
    heightLookup cfg (heightLookup cfg c x z).2 x z
      = ((heightLookup cfg c x z).1, (heightLookup cfg c x z).2) := by
  cases h : lookupMap c (x, z) with
  | none => simp [heightLookup, h, lookupMap]
  | some s => simp [heightLookup, h]

theorem canopyHitB_insert_self (reg : List ((Int × Int) × Int)) (x z y : Int)
    (h : canopyHitB (((x, z), y + 1) :: reg) x z y = true) : canopyHitB reg x z y = true := by
  rcases List.any_eq_true.mp h with ⟨d, hd, hhit⟩
  refine List.any_eq_true.mpr ⟨d, hd, ?_⟩
  by_cases hk : (x + d.1, z + d.2) = (x, z)
  · rw [hitAt, hk, lookupMap_head] at hhit
    have : y + 1 ≤ y := (of_decide_eq_true hhit).1
    omega
  · rw [hitAt] at hhit ⊢
    rw [show lookupMap (((x, z), y + 1) :: reg) (x + d.1, z + d.2)
          = lookupMap reg (x + d.1, z + d.2) by simp [lookupMap, hk]] at hhit
    exact hhit

theorem cacheOK_nil (cfg : VoxelCfg) : cacheOK cfg [] := by
  intro k v h
  simp [lookupMap] at h

theorem heightLookup_val (cfg : VoxelCfg) (c : List ((Int × Int) × ℚ)) (x z : Int)
    (h : cacheOK cfg c) : (heightLookup cfg c x z).1 = groundSample cfg x z := by
  cases hl : lookupMap c (x, z) with
  | none => simp [heightLookup, hl]
  | some s => simpa [heightLookup, hl] using h (x, z) s hl

theorem heightLookup_cacheOK (cfg : VoxelCfg) (c : List ((Int × Int) × ℚ)) (x z : Int)
    (h : cacheOK cfg c) : cacheOK cfg (heightLookup cfg c x z).2 := by
  cases hl : lookupMap c (x, z) with
  | some s => simpa [heightLookup, hl] using h
  | none =>
      intro k v hkv
      simp only [heightLookup, hl, lookupMap] at hkv
      by_cases hk : k = (x, z)
      · rw [if_pos hk] at hkv
        rw [hk, (Option.some_inj.mp hkv).symm]
      · rw [if_neg hk] at hkv
        exact h k v hkv

theorem classifyState_cache (cfg : VoxelCfg) (st : ClassifierState) (p : IVec3) :
    (classifyState cfg st p).cache
      = if p.y < 1 then st.cache else (heightLookup cfg st.cache p.x p.z).2 := by
  simp only [classifyState, get_voxel_fn]
  split_ifs <;> rfl

theorem classify_cacheOK (cfg : VoxelCfg) (st : ClassifierState) (p : IVec3)
    (h : cacheOK cfg st.cache) : cacheOK cfg (classifyState cfg st p).cache := by
  rw [classifyState_cache]
  split_ifs
  · exact h
  · exact heightLookup_cacheOK cfg st.cache p.x p.z h

theorem runSeq_cacheOK (cfg : VoxelCfg) (ps : List IVec3) (st : ClassifierState)
    (h : cacheOK cfg st.cache) : cacheOK cfg (runSeq cfg st ps).cache := by
  induction ps generalizing st with
  | nil => exact h
  | cons p ps ih => exact ih (classifyState cfg st p) (classify_cacheOK cfg st p h)

theorem classify_repeat (cfg : VoxelCfg) (st : ClassifierState) (p : IVec3) :
    classifyAt cfg (classifyState cfg st p) p = classifyAt cfg st p := by
  by_cases hy : p.y < 1
  · simp [classifyAt, classifyState, get_voxel_fn, hy]
  · have hst := heightLookup_stable cfg st.cache p.x p.z
    by_cases hc : canopyHitB st.canopy_positions p.x p.z p.y = true
    · simp [classifyAt, classifyState, get_voxel_fn, hy, hc, hst]
    · by_cases hg : (p.y : ℚ) < (heightLookup cfg st.cache p.x p.z).1
      · simp [classifyAt, classifyState, get_voxel_fn, hy, hc, hg, hst]
      · by_cases h2 : (p.y : ℚ) < (heightLookup cfg st.cache p.x p.z).1 + 5 ∧
            (heightLookup cfg st.cache p.x p.z).1 > 5 ∧ (p.y : ℚ) > 5
        · by_cases h3 : (5:Int) ∣ p.x ∧ (5:Int) ∣ p.z
          · have hc2 : canopyHitB (((p.x, p.z), p.y + 1) :: st.canopy_positions)
                p.x p.z p.y = false := by
              cases hcc : canopyHitB (((p.x, p.z), p.y + 1) :: st.canopy_positions)
                  p.x p.z p.y with
              | false => rfl
              | true => exact absurd (canopyHitB_insert_self _ _ _ _ hcc) (by simp [hc])
            simp [classifyAt, classifyState, get_voxel_fn, hy, hc, hg, h2, h3, h2.1,
              hst, hc2]
          · simp [classifyAt, classifyState, get_voxel_fn, hy, hc, hg, h2, h3, hst]
        · simp [classifyAt, classifyState, get_voxel_fn, hy, hc, hg, h2, hst]

/-- Claim C1 (amended): on a fixed classifier instance, two consecutive
classification calls at the same position return the same WorldVoxel,
and the ground height the instance reports for a fixed column is the
same after any two query histories started from the fresh state; the
original claim also allowed arbitrary interleaved classifications
between the two calls at p, which the counterexample refutes. -/
theorem classify_consecutive_idempotent_height_stable :
    (∀ (cfg : VoxelCfg) (st : ClassifierState) (p : IVec3),
      classifyAt cfg (classifyState cfg st p) p = classifyAt cfg st p) ∧
    (∀ (cfg : VoxelCfg) (ps qs : List IVec3) (x z : Int),
      heightAt cfg (runSeq cfg initState ps) x z
        = heightAt cfg (runSeq cfg initState qs) x z) := by
  constructor
  · exact classify_repeat
  · intro cfg ps qs x z
    have h1 := runSeq_cacheOK cfg ps initState (cacheOK_nil cfg)
    have h2 := runSeq_cacheOK cfg qs initState (cacheOK_nil cfg)
    unfold heightAt
    rw [heightLookup_val cfg _ x z h1, heightLookup_val cfg _ x z h2]

/-- Claim C1 counterexample: on one cfgU instance, position (1, 21, 0)
classifies as Air, then classifying the trunk position (0, 20, 0)
registers a trunk top, and a second classification at (1, 21, 0)
returns Solid 1 — so two classification calls at the same position with
another position classified in between differ. -/
theorem classify_order_dependent_cex :
    runQueries cfgU initState [⟨1, 21, 0⟩, ⟨0, 20, 0⟩, ⟨1, 21, 0⟩]
      = [WorldVoxel.Air, WorldVoxel.Solid 2, WorldVoxel.Solid 1] ∧
    WorldVoxel.Air ≠ WorldVoxel.Solid 1 := by
  constructor
  · norm_num [runQueries, classifyAt, classifyState, get_voxel_fn, heightLookup,
      lookupMap, groundSample, canopyHitB, hitAt, canopy_offsets, cfgU, constNoise,
      initState, Prod.mk.injEq, -Prod.mk_zero_zero, -Prod.mk_one_one]
  · simp

/-- Claim C2: for a position with y at least 1, not matched by the
canopy check and not below the ground height used by the classifier,
classification returns Solid 2 (trunk) exactly when ground height
exceeds 5, y lies in [5, ground height + 5) with tree height 5, and
both x and z are multiples of 5; and in that case the trunk top y + 1
is recorded for this column in the canopy registry. -/
theorem trunk_iff_conditions (cfg : VoxelCfg) (st : ClassifierState) (p : IVec3)
    (hy : 1 ≤ p.y)
    (hc : canopyHitB st.canopy_positions p.x p.z p.y = false)
    (hg : ¬ ((p.y : ℚ) < heightAt cfg st p.x p.z)) :
    (classifyAt cfg st p = WorldVoxel.Solid 2 ↔
      (heightAt cfg st p.x p.z > 5 ∧ 5 ≤ p.y ∧
        (p.y : ℚ) < heightAt cfg st p.x p.z + 5 ∧ p.x % 5 = 0 ∧ p.z % 5 = 0)) ∧
    (classifyAt cfg st p = WorldVoxel.Solid 2 →
      lookupMap (classifyState cfg st p).canopy_positions (p.x, p.z) = some (p.y + 1)) := by
  have hy' : ¬ p.y < 1 := by omega
  unfold heightAt at hg ⊢
  unfold classifyAt classifyState get_voxel_fn
  simp only [hy', if_false, hc, Bool.false_eq_true, hg]
  split_ifs with h2 h3 h4
  · constructor
    · simp only [true_iff]
      refine ⟨h2.2.1, ?_, h2.1, h3.1, h3.2⟩
      have h5 : (5 : ℚ) < (p.y : ℚ) := h2.2.2
      exact_mod_cast le_of_lt (by exact_mod_cast h5)
    · intro _
      exact lookupMap_head _ _ _
  · exact absurd h2.1 h4
  · constructor
    · constructor
      · intro h
        simp at h
      · intro h
        exact absurd ⟨h.2.2.2.1, h.2.2.2.2⟩ h3
    · intro h
      simp at h
  · constructor
    · constructor
      · intro h
        simp at h
      · intro h
        refine absurd ?_ h2
        have hge : heightAt cfg st p.x p.z ≤ (p.y : ℚ) := not_lt.mp hg
        have h5 : (5 : ℚ) < heightAt cfg st p.x p.z := h.1
        exact ⟨h.2.2.1, h.1, lt_of_lt_of_le h5 hge⟩
    · intro h
      simp at h

/-- Claim C2 witness: cfgU has ground height 20 at column (0, 0); the
trunk position (0, 20, 0) on a fresh instance satisfies the hypotheses,
classifies Solid 2 and records trunk top 21. -/
theorem trunk_iff_conditions_app :
    classifyAt cfgU initState ⟨0, 20, 0⟩ = WorldVoxel.Solid 2 ∧
    lookupMap (classifyState cfgU initState ⟨0, 20, 0⟩).canopy_positions (0, 0)
      = some 21 := by
  have h := trunk_iff_conditions cfgU initState ⟨0, 20, 0⟩ (by norm_num) (by decide)
    (by norm_num [heightAt, heightLookup, lookupMap, groundSample, cfgU, constNoise,
      initState])
  have hs : classifyAt cfgU initState ⟨0, 20, 0⟩ = WorldVoxel.Solid 2 :=
    h.1.mpr (by norm_num [heightAt, heightLookup, lookupMap, groundSample, cfgU,
      constNoise, initState])
  exact ⟨hs, h.2 hs⟩

theorem trunk_grid (cfg : VoxelCfg) (st : ClassifierState) (p : IVec3)
    (h : classifyAt cfg st p = WorldVoxel.Solid 2) : p.x % 5 = 0 ∧ p.z % 5 = 0 := by
  unfold classifyAt get_voxel_fn at h
  simp only at h
  split_ifs at h with h1 h2 h3 h4 h5 h6 <;> simp at h
  exact h5

theorem canopy_source (cfg : VoxelCfg) (st : ClassifierState) (p : IVec3)
    (h : classifyAt cfg st p = WorldVoxel.Solid 1) :
    ∃ d ∈ canopy_offsets, ∃ b : Int,
      lookupMap st.canopy_positions (p.x + d.1, p.z + d.2) = some b ∧
        b ≤ p.y ∧ p.y ≤ b + 3 := by
  unfold classifyAt get_voxel_fn at h
  simp only at h
  split_ifs at h with h1 h2 h3 h4 h5 h6 <;> simp at h
  rcases List.any_eq_true.mp h2 with ⟨d, hd, hhit⟩
  refine ⟨d, hd, ?_⟩
  unfold hitAt at hhit
  cases hl : lookupMap st.canopy_positions (p.x + d.1, p.z + d.2) with
  | none => rw [hl] at hhit; simp at hhit
  | some b =>
      rw [hl] at hhit
      simp only [decide_eq_true_eq] at hhit
      exact ⟨b, rfl, hhit.1, hhit.2⟩

/-- Claim C7: classification yields Solid 2 (trunk) only at columns
where both x and z are multiples of 5 — hence two trunk columns agree on
an axis or differ by at least 5 on it — and yields Solid 1 (canopy) only
when some of the nine offset columns (self plus the 8 lateral neighbors)
has a registered trunk top b with y in [b, b + 3]. -/
theorem trunk_grid_and_canopy_range :
    ∀ (cfg : VoxelCfg) (st : ClassifierState) (p : IVec3),
      (classifyAt cfg st p = WorldVoxel.Solid 2 → p.x % 5 = 0 ∧ p.z % 5 = 0) ∧
      (classifyAt cfg st p = WorldVoxel.Solid 1 →
        ∃ d ∈ canopy_offsets, ∃ b : Int,
          lookupMap st.canopy_positions (p.x + d.1, p.z + d.2) = some b ∧
            b ≤ p.y ∧ p.y ≤ b + 3) ∧
      (∀ (cfg2 : VoxelCfg) (st2 : ClassifierState) (q : IVec3),
        classifyAt cfg st p = WorldVoxel.Solid 2 →
        classifyAt cfg2 st2 q = WorldVoxel.Solid 2 →
        (p.x = q.x ∨ 5 ≤ |p.x - q.x|) ∧ (p.z = q.z ∨ 5 ≤ |p.z - q.z|)) := by
  intro cfg st p
  refine ⟨trunk_grid cfg st p, canopy_source cfg st p, ?_⟩
  intro cfg2 st2 q hp hq
  have hpg := trunk_grid cfg st p hp
  have hqg := trunk_grid cfg2 st2 q hq
  have hx : (5 : Int) ∣ (p.x - q.x) :=
    dvd_sub (Int.dvd_of_emod_eq_zero hpg.1) (Int.dvd_of_emod_eq_zero hqg.1)
  have hz : (5 : Int) ∣ (p.z - q.z) :=
    dvd_sub (Int.dvd_of_emod_eq_zero hpg.2) (Int.dvd_of_emod_eq_zero hqg.2)
  constructor
  · rcases eq_or_ne p.x q.x with he | hne
    · exact Or.inl he
    · refine Or.inr ?_
      have h0 : p.x - q.x ≠ 0 := sub_ne_zero.mpr hne
      have h1 := Int.one_le_abs h0
      have h2 : (5 : Int) ∣ |p.x - q.x| := (dvd_abs 5 (p.x - q.x)).mpr hx
      omega
  · rcases eq_or_ne p.z q.z with he | hne
    · exact Or.inl he
    · refine Or.inr ?_
      have h0 : p.z - q.z ≠ 0 := sub_ne_zero.mpr hne
      have h1 := Int.one_le_abs h0
      have h2 : (5 : Int) ∣ |p.z - q.z| := (dvd_abs 5 (p.z - q.z)).mpr hz
      omega

/-- Claim C7 witness: the trunk at (0, 20, 0) sits on the 5-grid; the
canopy voxel (1, 21, 0) of an instance holding trunk top 21 at (0, 0)
comes from a registered neighbor offset; trunks (0, 20, 0) and
(5, 20, 5) are 5 apart on both axes. -/
theorem trunk_grid_and_canopy_range_app :
    ((⟨0, 20, 0⟩ : IVec3).x % 5 = 0 ∧ (⟨0, 20, 0⟩ : IVec3).z % 5 = 0) ∧
    (∃ d ∈ canopy_offsets, ∃ b : Int,
      lookupMap stAfterTrunk.canopy_positions
          ((⟨1, 21, 0⟩ : IVec3).x + d.1, (⟨1, 21, 0⟩ : IVec3).z + d.2) = some b ∧
        b ≤ (⟨1, 21, 0⟩ : IVec3).y ∧ (⟨1, 21, 0⟩ : IVec3).y ≤ b + 3) ∧
    (((⟨0, 20, 0⟩ : IVec3).x = (⟨5, 20, 5⟩ : IVec3).x ∨
        5 ≤ |(⟨0, 20, 0⟩ : IVec3).x - (⟨5, 20, 5⟩ : IVec3).x|) ∧
      ((⟨0, 20, 0⟩ : IVec3).z = (⟨5, 20, 5⟩ : IVec3).z ∨
        5 ≤ |(⟨0, 20, 0⟩ : IVec3).z - (⟨5, 20, 5⟩ : IVec3).z|)) := by
  refine ⟨(trunk_grid_and_canopy_range cfgU initState ⟨0, 20, 0⟩).1 ?_,
    (trunk_grid_and_canopy_range cfgU stAfterTrunk ⟨1, 21, 0⟩).2.1 ?_,
    (trunk_grid_and_canopy_range cfgU initState ⟨0, 20, 0⟩).2.2 cfgU initState
      ⟨5, 20, 5⟩ ?_ ?_⟩
  · norm_num [classifyAt, get_voxel_fn, heightLookup, lookupMap, groundSample,
      canopyHitB, hitAt, canopy_offsets, cfgU, constNoise, initState,
      Prod.mk.injEq, -Prod.mk_zero_zero, -Prod.mk_one_one]
  · norm_num [classifyAt, classifyState, get_voxel_fn, heightLookup, lookupMap,
      groundSample, canopyHitB, hitAt, canopy_offsets, cfgU, constNoise, initState,
      stAfterTrunk, Prod.mk.injEq, -Prod.mk_zero_zero, -Prod.mk_one_one]
  · norm_num [classifyAt, get_voxel_fn, heightLookup, lookupMap, groundSample,
      canopyHitB, hitAt, canopy_offsets, cfgU, constNoise, initState,
      Prod.mk.injEq, -Prod.mk_zero_zero, -Prod.mk_one_one]
  · norm_num [classifyAt, get_voxel_fn, heightLookup, lookupMap, groundSample,
      canopyHitB, hitAt, canopy_offsets, cfgU, constNoise, initState,
      Prod.mk.injEq, -Prod.mk_zero_zero, -Prod.mk_one_one]

/-- Claim C8: the classifier applies its rules in a fixed order with the
first match winning, and the canopy check precedes the ground check: for
any position with y at least 1 whose canopy loop hits (some of the 9
offsets has a registered trunk top b with y in [b, b + 3]),
classification returns Solid 1 (canopy) — even when y is below the
ground height of that column. -/
theorem canopy_check_precedes_ground (cfg : VoxelCfg) (st : ClassifierState) (p : IVec3)
    (hy : 1 ≤ p.y) (hc : canopyHitB st.canopy_positions p.x p.z p.y = true) :
    classifyAt cfg st p = WorldVoxel.Solid 1 := by
  have hy' : ¬ p.y < 1 := by omega
  simp [classifyAt, get_voxel_fn, hy', hc]

/-- Claim C8 witness: with registered trunk top 8 at column (0, 0), the
position (0, 10, 0) classifies as Solid 1 although its y = 10 is below
the cfgU ground height 20 of that column. -/
theorem canopy_check_precedes_ground_app :
    classifyAt cfgU ⟨[], [((0, 0), 8)]⟩ ⟨0, 10, 0⟩ = WorldVoxel.Solid 1 ∧
    ((⟨0, 10, 0⟩ : IVec3).y : ℚ) < heightAt cfgU ⟨[], [((0, 0), 8)]⟩ 0 0 := by
  constructor
  · exact canopy_check_precedes_ground cfgU ⟨[], [((0, 0), 8)]⟩ ⟨0, 10, 0⟩
      (by norm_num) (by decide)
  · norm_num [heightAt, heightLookup, lookupMap, groundSample, cfgU, constNoise]

/-- Claim C5: inside the classifier the height formula does agree with
the spec formula (x / (1000 / scale) equals x * scale / 1000 over the
rationals), but the delegate of src/examples/advanced/main.rs lines
84-88 calls get_voxel_fn(1.0, 1.0, 0.0) instead of passing the captured
tier multipliers: with configured height_scale = 2 and constant noise
2/5, the spec formula gives ground height 40, so (0, 30, 0) should be
ground, yet the delegate classifies it Air because it really uses
multipliers (1, 1, 0) and ground height 20. -/
theorem mainrs_delegate_ignores_config :
    (∀ (cfg : VoxelCfg) (x z : Int), groundSample cfg x z = specGroundHeight cfg x z) ∧
    specGroundHeight ⟨constNoise (2/5), 1, 2, 0⟩ 0 0 = 40 ∧
    ((⟨0, 30, 0⟩ : IVec3).y : ℚ) < specGroundHeight ⟨constNoise (2/5), 1, 2, 0⟩ 0 0 ∧
    mainrsVoxelQuery ⟨1, 2⟩ (constNoise (2/5)) ⟨0, 30, 0⟩ = WorldVoxel.Air := by
  refine ⟨?_, ?_, ?_, ?_⟩
  · intro cfg x z
    unfold groundSample specGroundHeight
    rw [div_div_eq_mul_div, div_div_eq_mul_div]
  · norm_num [specGroundHeight, constNoise]
  · norm_num [specGroundHeight, constNoise]
  · norm_num [mainrsVoxelQuery, classifyAt, get_voxel_fn, heightLookup, lookupMap,
      groundSample, canopyHitB, hitAt, canopy_offsets, constNoise, initState,
      Prod.mk.injEq, -Prod.mk_zero_zero, -Prod.mk_one_one]

/-- Claim C6: one chunk closure of src/examples/advanced/world.rs
threads a single classifier instance through its queries, so after the
trunk query (0, 20, 0) the neighbor query (1, 21, 0) sees the
registered trunk top and answers Solid 1; the delegate of
src/examples/advanced/main.rs instead builds a fresh classifier inside
the per-voxel closure on every query, so the same second query answers
Air — no single instance answers a chunk and no registry state
persists between queries. -/
theorem mainrs_delegate_no_state_reuse :
    worldrsChunkAnswers 1 1 0 (constNoise (2/5)) [⟨0, 20, 0⟩, ⟨1, 21, 0⟩]
      = [WorldVoxel.Solid 2, WorldVoxel.Solid 1] ∧
    mainrsVoxelQuery ⟨1, 1⟩ (constNoise (2/5)) ⟨0, 20, 0⟩ = WorldVoxel.Solid 2 ∧
    mainrsVoxelQuery ⟨1, 1⟩ (constNoise (2/5)) ⟨1, 21, 0⟩ = WorldVoxel.Air := by
  refine ⟨?_, ?_, ?_⟩ <;>
    norm_num [worldrsChunkAnswers, mainrsVoxelQuery, runQueries, classifyAt,
      classifyState, get_voxel_fn, heightLookup, lookupMap, groundSample,
      canopyHitB, hitAt, canopy_offsets, constNoise, initState,
      Prod.mk.injEq, -Prod.mk_zero_zero, -Prod.mk_one_one]

/-- Claim C10 counterexample: the two tier configurations defined in
src/examples/advanced/main.rs have ranges [0, 4) and [1, 3), and chunk
distance 1 lies in both, so the ranges are not disjoint. -/
theorem mainrs_ranges_overlap_cex :
    inRangeB mainrsHighRange 1 = true ∧ inRangeB mainrsLowRange 1 = true := by
  constructor <;> decide

/-- Claim C10 (amended): the tier pair of src/examples/advanced/world.rs
([0, 5) and [6, 7)) has disjoint ranges; the pair defined in
src/examples/advanced/main.rs ([0, 4) and [1, 3)) overlaps, though its
low-detail tier is never registered with the app. -/
theorem worldrs_ranges_disjoint :
    ∀ d : Nat, (inRangeB worldrsHighRange d && inRangeB worldrsLowRange d) = false := by
  intro d
  rcases Nat.lt_or_ge d 5 with h | h
  · have hl : inRangeB worldrsLowRange d = false := by
      simp only [inRangeB, worldrsLowRange, Bool.and_eq_false_iff,
        decide_eq_false_iff_not, not_le, not_lt]
      omega
    rw [hl, Bool.and_false]
  · have hh : inRangeB worldrsHighRange d = false := by
      simp only [inRangeB, worldrsHighRange, Bool.and_eq_false_iff,
        decide_eq_false_iff_not, not_le, not_lt]
      omega
    rw [hh, Bool.false_and]

theorem truncQ_le_ceil (q : ℚ) : truncQ q ≤ ⌈q⌉ := by
  unfold truncQ
  split_ifs
  · exact Int.floor_le_ceil q
  · exact le_refl _

theorem vertResolve_xz (V : IVec3 → WorldVoxel) (c : V3) (vy : ℚ) (g : Bool) :
    (vertResolve V c vy g).1.x = c.x ∧ (vertResolve V c vy g).1.z = c.z := by
  unfold vertResolve
  split_ifs <;> simp

/-- Claim C4 (amended): in vertical resolution, whenever the feet probe
is not Solid and the head probe is Solid, y is snapped to
floor(head.y) - 1 and vertical velocity is zeroed, but the grounded
flag is left unchanged rather than being set to not grounded. -/
theorem head_branch_behavior (V : IVec3 → WorldVoxel) (c : V3) (vy : ℚ) (g : Bool)
    (hfeet : isSolid (V (asIVec3 (feet_position c))) = false)
    (hhead : isSolid (V (asIVec3 (head_position c))) = true) :
    vertResolve V c vy g
      = (⟨c.x, ((⌊(head_position c).y⌋ : Int) : ℚ) - 1, c.z⟩, 0, g) := by
  simp [vertResolve, hfeet, hhead]

/-- Claim C4 witness: under fieldT, at candidate (3/2, 43/2, 3/2) the
feet probe is Air and the head probe is canopy, so the position snaps to
y = 21 with zero vertical velocity, keeping the incoming grounded
flag (here false). -/
theorem head_branch_behavior_app :
    vertResolve fieldT ⟨3/2, 43/2, 3/2⟩ (-2) false
      = (⟨3/2, ((⌊(head_position ⟨3/2, 43/2, 3/2⟩).y⌋ : Int) : ℚ) - 1, 3/2⟩, 0, false) :=
  head_branch_behavior fieldT ⟨3/2, 43/2, 3/2⟩ (-2) false
    (by norm_num [fieldT, stAfterTrunk, feet_position, asIVec3, truncQ, isSolid,
      classifyAt, classifyState, get_voxel_fn, heightLookup, lookupMap, groundSample,
      canopyHitB, hitAt, canopy_offsets, cfgU, constNoise, initState,
      Prod.mk.injEq, -Prod.mk_zero_zero, -Prod.mk_one_one])
    (by norm_num [fieldT, stAfterTrunk, head_position, asIVec3, truncQ, isSolid,
      classifyAt, classifyState, get_voxel_fn, heightLookup, lookupMap, groundSample,
      canopyHitB, hitAt, canopy_offsets, cfgU, constNoise, initState,
      Prod.mk.injEq, -Prod.mk_zero_zero, -Prod.mk_one_one])

/-- Claim C4 counterexample: same situation entered with grounded =
true: the head branch fires (feet Air, head Solid) and the character is
still marked grounded afterwards, where the claim requires it to be
marked not grounded. -/
theorem head_branch_keeps_grounded_cex :
    isSolid (fieldT (asIVec3 (feet_position ⟨3/2, 43/2, 3/2⟩))) = false ∧
    isSolid (fieldT (asIVec3 (head_position ⟨3/2, 43/2, 3/2⟩))) = true ∧
    (vertResolve fieldT ⟨3/2, 43/2, 3/2⟩ (-1) true).2.2 = true := by
  refine ⟨?_, ?_, ?_⟩ <;>
    norm_num [vertResolve, fieldT, stAfterTrunk, feet_position, head_position,
      asIVec3, truncQ, isSolid, classifyAt, classifyState, get_voxel_fn,
      heightLookup, lookupMap, groundSample, canopyHitB, hitAt, canopy_offsets,
      cfgU, constNoise, initState, Prod.mk.injEq, -Prod.mk_zero_zero, -Prod.mk_one_one]

/-- Claim C3 (amended): when the feet probe at the candidate position is
Solid, the tick ends with y equal to ceil(feet.y) + 1, which is never
below the top surface of the probed solid voxel (its integer y plus 1);
the final feet and head voxels can nevertheless still be Solid, since
the code never re-probes after snapping or after the horizontal
revert — the counterexample exhibits a tick ending with Solid at the
final feet voxel. -/
theorem feet_snap_above_top_surface (V : IVec3 → WorldVoxel) (p0 v : V3) (dt : ℚ)
    (g : Bool)
    (hfeet : isSolid (V (asIVec3 (feet_position (candidate p0 v dt)))) = true) :
    (walkTick V p0 v dt g).1.y
        = ((⌈(feet_position (candidate p0 v dt)).y⌉ : Int) : ℚ) + 1 ∧
    ((asIVec3 (feet_position (candidate p0 v dt))).y : ℚ) + 1
        ≤ (walkTick V p0 v dt g).1.y := by
  have hy : (walkTick V p0 v dt g).1.y
      = ((⌈(feet_position (candidate p0 v dt)).y⌉ : Int) : ℚ) + 1 := by
    simp only [walkTick, vertResolve, hfeet, if_true]
    split_ifs <;> simp [V3.sub, horizontal_movement]
  refine ⟨hy, ?_⟩
  rw [hy]
  have h1 : truncQ (feet_position (candidate p0 v dt)).y
      ≤ ⌈(feet_position (candidate p0 v dt)).y⌉ :=
    truncQ_le_ceil _
  have h2 : ((asIVec3 (feet_position (candidate p0 v dt))).y : ℚ)
      ≤ ((⌈(feet_position (candidate p0 v dt)).y⌉ : Int) : ℚ) := by
    exact_mod_cast h1
  linarith

/-- Claim C3 witness: under fieldHill (ground height 11.5 everywhere),
starting at (1/2, 11, 1/2) with zero velocity, the feet probe (0, 10, 0)
is Solid and the tick ends at y = 11, which is not below the top surface
11 of that voxel. -/
theorem feet_snap_above_top_surface_app :
    (walkTick fieldHill ⟨1/2, 11, 1/2⟩ ⟨0, 0, 0⟩ 1 true).1.y
        = ((⌈(feet_position (candidate ⟨1/2, 11, 1/2⟩ ⟨0, 0, 0⟩ 1)).y⌉ : Int) : ℚ) + 1 ∧
    ((asIVec3 (feet_position (candidate ⟨1/2, 11, 1/2⟩ ⟨0, 0, 0⟩ 1))).y : ℚ) + 1
        ≤ (walkTick fieldHill ⟨1/2, 11, 1/2⟩ ⟨0, 0, 0⟩ 1 true).1.y :=
  feet_snap_above_top_surface fieldHill ⟨1/2, 11, 1/2⟩ ⟨0, 0, 0⟩ 1 true
    (by norm_num [fieldHill, cfgHill, candidate, V3.add, V3.smul, feet_position,
      asIVec3, truncQ, isSolid, classifyAt, get_voxel_fn, heightLookup, lookupMap,
      groundSample, canopyHitB, hitAt, canopy_offsets, constNoise, initState,
      Prod.mk.injEq, -Prod.mk_zero_zero, -Prod.mk_one_one])

/-- Claim C3 counterexample: the same tick under fieldHill ends at
(1/2, 11, 1/2) — the feet probe was Solid, the snap moves y to 11, the
lateral probes hit the hillside so the (zero) horizontal displacement is
reverted — and the voxel at the final feet position (0, 10, 0) is
Solid 0: after a full movement-resolution tick the final feet voxel is
classified Solid, contradicting the claimed guarantee. -/
theorem tick_final_feet_solid_cex :
    (walkTick fieldHill ⟨1/2, 11, 1/2⟩ ⟨0, 0, 0⟩ 1 true).1 = ⟨1/2, 11, 1/2⟩ ∧
    isSolid (fieldHill (asIVec3 (feet_position
      (walkTick fieldHill ⟨1/2, 11, 1/2⟩ ⟨0, 0, 0⟩ 1 true).1))) = true := by
  have hmain : (walkTick fieldHill ⟨1/2, 11, 1/2⟩ ⟨0, 0, 0⟩ 1 true).1
      = ⟨1/2, 11, 1/2⟩ := by
    norm_num [walkTick, vertResolve, anyProbeSolid, check_positions, candidate,
      V3.add, V3.smul, V3.sub, horizontal_movement, feet_position, head_position,
      asIVec3, truncQ, isSolid, fieldHill, cfgHill, classifyAt, get_voxel_fn,
      heightLookup, lookupMap, groundSample, canopyHitB, hitAt, canopy_offsets,
      constNoise, initState, Prod.mk.injEq, -Prod.mk_zero_zero, -Prod.mk_one_one]
  refine ⟨hmain, ?_⟩
  rw [hmain]
  norm_num [feet_position, asIVec3, truncQ, isSolid, fieldHill, cfgHill,
    classifyAt, get_voxel_fn, heightLookup, lookupMap, groundSample, canopyHitB,
    hitAt, canopy_offsets, constNoise, initState, Prod.mk.injEq,
    -Prod.mk_zero_zero, -Prod.mk_one_one]

/-- Claim C9: whenever any of the four lateral probes at the vertically
resolved position is Solid, the whole horizontal displacement of the
tick is reverted, so the tick produces exactly zero net horizontal
displacement: final x and z equal the starting x and z. -/
theorem horizontal_revert_zero_net (V : IVec3 → WorldVoxel) (p0 v : V3) (dt : ℚ)
    (g : Bool)
    (h : anyProbeSolid V (vertResolve V (candidate p0 v dt) v.y g).1 = true) :
    (walkTick V p0 v dt g).1.x = p0.x ∧ (walkTick V p0 v dt g).1.z = p0.z := by
  have hxz := vertResolve_xz V (candidate p0 v dt) v.y g
  simp only [walkTick, h, if_true]
  constructor
  · rw [show (V3.sub (vertResolve V (candidate p0 v dt) v.y g).1
        (horizontal_movement v dt)).x
        = (vertResolve V (candidate p0 v dt) v.y g).1.x - v.x * dt from rfl,
      hxz.1]
    simp only [candidate, V3.add, V3.smul]
    ring
  · rw [show (V3.sub (vertResolve V (candidate p0 v dt) v.y g).1
        (horizontal_movement v dt)).z
        = (vertResolve V (candidate p0 v dt) v.y g).1.z - v.z * dt from rfl,
      hxz.2]
    simp only [candidate, V3.add, V3.smul]
    ring

/-- Claim C9 witness: under fieldStep (a wall of ground height 20 at
x at least 3 next to terrain of height 1/2), a step from
(5/2, 10, 1/2) with velocity (3/10, 0, 0) has its first lateral probe
inside the wall, and the tick ends with x = 5/2 and z = 1/2 — zero net
horizontal displacement. -/
theorem horizontal_revert_zero_net_app :
    (walkTick fieldStep ⟨5/2, 10, 1/2⟩ ⟨3/10, 0, 0⟩ 1 false).1.x = (5/2 : ℚ) ∧
    (walkTick fieldStep ⟨5/2, 10, 1/2⟩ ⟨3/10, 0, 0⟩ 1 false).1.z = (1/2 : ℚ) :=
  horizontal_revert_zero_net fieldStep ⟨5/2, 10, 1/2⟩ ⟨3/10, 0, 0⟩ 1 false
    (by norm_num [anyProbeSolid, check_positions, vertResolve, candidate, V3.add,
      V3.smul, feet_position, head_position, asIVec3, truncQ, isSolid, fieldStep,
      cfgStep, stepNoise, classifyAt, get_voxel_fn, heightLookup, lookupMap,
      groundSample, canopyHitB, hitAt, canopy_offsets, initState, Prod.mk.injEq,
      -Prod.mk_zero_zero, -Prod.mk_one_one])
